import Mathlib

/-!
Verification of the `twisted-examples` cars client/server against its
natural-language specification.

Strings on the wire are modelled as lists of characters.  `pySplit` is
Python's `str.split` with a one-character separator and `pyJoin` is
`sep.join`, exactly as used by `server.py` (`'.'.join(self.factory.cars)`,
`'%s:%s:%s' % (t, brand, color)`) and `client.py`
(`self.data.split('.')` in `TrafficProtocol.connectionLost`).
-/

/-- Wire strings are modelled as lists of characters. -/
abbrev Str := List Char

/-- Python `s.split(sep)` for a one-character separator: the empty string
splits to `[""]`, and every separator occurrence opens a new chunk. -/
def pySplit (sep : Char) : Str → List Str
  | [] => [[]]
  | c :: rest =>
    if c = sep then [] :: pySplit sep rest
    else (c :: (pySplit sep rest).headI) :: (pySplit sep rest).tail

/-- Python `sep.join(chunks)` for a one-character separator. -/
def pyJoin (sep : Char) : List Str → Str
  | [] => []
  | [c] => c
  | c :: c2 :: cs => c ++ sep :: pyJoin sep (c2 :: cs)

/-- `str.split` never returns an empty list. -/
theorem pySplit_ne_nil (sep : Char) (s : Str) : pySplit sep s ≠ [] := by
  cases s with
  | nil => simp [pySplit]
  | cons c rest =>
    simp only [pySplit]
    split <;> simp

/-- Splitting a string that does not contain the separator gives the
one-chunk list. -/
theorem pySplit_no_sep (sep : Char) (s : Str) (h : sep ∉ s) :
    pySplit sep s = [s] := by
  induction s with
  | nil => rfl
  | cons c rest ih =>
    rw [List.mem_cons, not_or] at h
    simp only [pySplit]
    rw [if_neg (fun e => h.1 e.symm), ih h.2]
    simp

/-- Splitting a string that starts with a separator-free chunk followed by
the separator peels off that chunk. -/
theorem pySplit_append (sep : Char) (c t : Str) (h : sep ∉ c) :
    pySplit sep (c ++ sep :: t) = c :: pySplit sep t := by
  induction c with
  | nil => simp [pySplit]
  | cons a c2 ih =>
    rw [List.mem_cons, not_or] at h
    simp only [List.cons_append, pySplit]
    rw [if_neg (fun e => h.1 e.symm)]
    simp only [List.append_eq]
    rw [ih h.2]
    simp

/-- Round trip of split after join on a nonempty list of separator-free
chunks. -/
theorem pySplit_pyJoin (sep : Char) :
    ∀ (cs : List Str) (c : Str), (∀ x ∈ c :: cs, sep ∉ x) →
      pySplit sep (pyJoin sep (c :: cs)) = c :: cs := by
  intro cs
  induction cs with
  | nil =>
    intro c h
    simpa [pyJoin] using pySplit_no_sep sep c (h c (by simp))
  | cons c2 cs2 ih =>
    intro c h
    have hstep : pyJoin sep (c :: c2 :: cs2) = c ++ sep :: pyJoin sep (c2 :: cs2) := rfl
    rw [hstep, pySplit_append sep c _ (h c (by simp))]
    rw [ih c2 (fun x hx => h x (List.mem_cons_of_mem c hx))]

/-!
Record layer.  `server.py`'s `WatchCars.run` produces car entries as
`'%s:%s:%s' % (t, brand, color)` and `TrafficProtocol.connectionMade`
writes `'.'.join(self.factory.cars)`.  The client's
`TrafficProtocol.connectionLost` decodes by `self.data.split('.')` only —
it never splits a chunk on `':'`.
-/

/-- One car record: timestamp, brand, color (spec section 3). -/
structure CarRecord where
  timestamp : Str
  brand : Str
  color : Str
deriving DecidableEq

/-- The wire form of one record, from `server.py` `WatchCars.run`:
`'%s:%s:%s' % (t, brand, color)`. -/
def formatRecord (r : CarRecord) : Str :=
  r.timestamp ++ ':' :: r.brand ++ ':' :: r.color

/-- A field containing neither the record separator `'.'` nor the field
separator `':'`. -/
def cleanField (f : Str) : Prop := '.' ∉ f ∧ ':' ∉ f

instance (f : Str) : Decidable (cleanField f) := by
  unfold cleanField; infer_instance

/-- All three fields of the record are clean. -/
def cleanRecord (r : CarRecord) : Prop :=
  cleanField r.timestamp ∧ cleanField r.brand ∧ cleanField r.color

instance (r : CarRecord) : Decidable (cleanRecord r) := by
  unfold cleanRecord; infer_instance

/-- Server-side encoding of the cars list, from `server.py`
`TrafficProtocol.connectionMade`: `'.'.join(self.factory.cars)`. -/
def encodeTraffic (cars : List Str) : Str := pyJoin '.' cars

/-- Encoding a list of records: each is formatted as on the server, then
joined with `'.'`. -/
def encodeRecords (rs : List CarRecord) : Str :=
  encodeTraffic (rs.map formatRecord)

/-- Client-side decode, from `client.py` `TrafficProtocol.connectionLost`:
the accumulated buffer is split on `'.'` and every chunk is kept as one
"car" string; no further parsing or validation happens. -/
def clientDecode (data : Str) : List Str := pySplit '.' data

/-- Parsing one chunk into a record: split on `':'` and require exactly
three fields (spec section 4.1's per-chunk rule). -/
def recordOfChunk (c : Str) : Option CarRecord :=
  match pySplit ':' c with
  | [t, b, col] => some ⟨t, b, col⟩
  | _ => none

/-- Modelled from the spec: the Record Codec `decode` of spec section 4.1
is absent from `src/cars` — the client's `connectionLost` only splits on
`'.'` and never validates chunks.  Per the spec, an empty payload decodes
to an empty sequence, and otherwise every chunk must split on `':'` into
exactly three fields; a malformed chunk yields `MalformedRecord`, here
`none`. -/
def specDecode (p : Str) : Option (List CarRecord) :=
  if p = [] then some []
  else (pySplit '.' p).mapM recordOfChunk

/-- The wire form of a record is the `':'`-join of its three fields. -/
theorem formatRecord_eq_join (r : CarRecord) :
    formatRecord r = pyJoin ':' [r.timestamp, r.brand, r.color] := by
  simp [formatRecord, pyJoin]

/-- A clean record's wire form contains no `'.'`. -/
theorem dot_not_mem_formatRecord (r : CarRecord) (h : cleanRecord r) :
    '.' ∉ formatRecord r := by
  obtain ⟨⟨ht, _⟩, ⟨hb, _⟩, ⟨hc, _⟩⟩ := h
  simp only [formatRecord, List.mem_append, List.mem_cons, not_or]
  exact ⟨⟨ht, by decide, hb⟩, by decide, hc⟩

/-- Parsing the wire form of a clean record recovers the record. -/
theorem recordOfChunk_formatRecord (r : CarRecord) (h : cleanRecord r) :
    recordOfChunk (formatRecord r) = some r := by
  obtain ⟨⟨_, ht⟩, ⟨_, hb⟩, ⟨_, hc⟩⟩ := h
  have hsplit : pySplit ':' (formatRecord r) = [r.timestamp, r.brand, r.color] := by
    rw [formatRecord_eq_join]
    exact pySplit_pyJoin ':' [r.brand, r.color] r.timestamp (by
      intro x hx
      simp only [List.mem_cons, List.not_mem_nil] at hx
      rcases hx with rfl | rfl | rfl | h0
      · exact ht
      · exact hb
      · exact hc
      · exact absurd h0 (by simp))
  simp [recordOfChunk, hsplit]

/-!
Aggregation layer, from `client.py`.

`TrafficClient.__init__` creates ONE `defer.Deferred()` and hands it to the
single `TrafficClientFactory`; `update_cars` loops over the addresses and,
for each, calls `connectTCP` and then adds the pair
`addCallbacks(got_cars, get_cars_failed)` followed by `addBoth(cars_done)`
onto that one shared deferred.  The factory fires the deferred at most once
(`get_cars_finished` / `clientConnectionFailed` both null it out first).

Twisted deferred semantics used here: firing runs the chain synchronously;
at each `addCallbacks` pair the callback runs on a value and the errback on
a failure; an exception inside a callback becomes a failure for the next
pair; a callback returning `None` passes `None` on.  `got_cars` returns
`None`, so the second chained `got_cars` receives `None` and
`self.cars.extend(None)` raises `TypeError`; `cars_done` (added with
`addBoth`) runs on either and returns `None`, swallowing any failure.
-/

/-- Python values flowing through the deferred chain: `None` or a list of
car strings. -/
inductive PyVal
  | pyNone
  | carList (l : List Str)
deriving DecidableEq

/-- Errors flowing through the deferred chain: a transport failure passed
to `errback`, or the `TypeError` raised by `self.cars.extend(None)`. -/
inductive PyErr
  | transport (cause : Str)
  | typeError
deriving DecidableEq

/-- Result at one point of the deferred chain: a value or a failure. -/
inductive ChainRes
  | ok (v : PyVal)
  | err (e : PyErr)
deriving DecidableEq

/-- Observable state of one `TrafficClient`: its merged `cars` list, its
`addr_count`, whether `reactor.stop()` has been called (completion), and
the errors handed to `get_cars_failed` (the code only logs them; the log
is the observation channel for "recorded failures"). -/
structure ClientState where
  cars : List Str
  addrCount : Nat
  stopped : Bool
  failedLog : List PyErr
deriving DecidableEq

/-- `TrafficClient.got_cars`: `self.cars.extend(cars)`.  On `None`
(the return value of the previous `cars_done` in the chain) Python raises
`TypeError`, which the deferred turns into a failure. -/
def got_cars (st : ClientState) (v : PyVal) : ClientState × ChainRes :=
  match v with
  | .carList l => ({ st with cars := st.cars ++ l }, .ok .pyNone)
  | .pyNone => (st, .err .typeError)

/-- `TrafficClient.get_cars_failed`: logs the error and returns `None`,
which makes the deferred treat the failure as handled. -/
def get_cars_failed (st : ClientState) (e : PyErr) : ClientState × ChainRes :=
  ({ st with failedLog := st.failedLog ++ [e] }, .ok .pyNone)

/-- `TrafficClient.cars_done`: increments `addr_count` and, when it equals
`len(self.addresses)` (`n`), calls `reactor.stop()`.  It ignores its
argument and returns `None`. -/
def cars_done (st : ClientState) (n : Nat) : ClientState :=
  if st.addrCount + 1 = n then
    { st with addrCount := st.addrCount + 1, stopped := true }
  else
    { st with addrCount := st.addrCount + 1 }

/-- One `addCallbacks(got_cars, get_cars_failed)` entry of the chain. -/
def step1 (st : ClientState) : ChainRes → ClientState × ChainRes
  | .ok v => got_cars st v
  | .err e => get_cars_failed st e

/-- Running `k` chained `(addCallbacks(got_cars, get_cars_failed);
addBoth(cars_done))` pairs, as installed by `update_cars` (one pair of
entries per address).  `cars_done` always returns `None`, so after each
pair the chain value is `None`. -/
def runChain (n : Nat) : Nat → ClientState → ChainRes → ClientState
  | 0, st, _ => st
  | k + 1, st, res => runChain n k (cars_done (step1 st res).1 n) (.ok .pyNone)

/-- Firing the single shared deferred runs the whole chain: `n` pairs for
`n` addresses, with the initial `callback`/`errback` result. -/
def fireDeferred (n : Nat) (st : ClientState) (res : ChainRes) : ClientState :=
  runChain n n st res

/-- State of client plus factory: `deferredAvailable` models
`TrafficClientFactory.self.deferred is not None`. -/
structure SystemState where
  client : ClientState
  deferredAvailable : Bool
deriving DecidableEq

/-- `TrafficClient.__init__`: empty cars list, `addr_count = 0`. -/
def initClient : ClientState := ⟨[], 0, false, []⟩

/-- Fresh client and factory: the single deferred is present. -/
def initSystem : SystemState := ⟨initClient, true⟩

/-- `TrafficClientFactory.get_cars_finished`: if the deferred is still
present, null it out and fire its callback chain with the cars list;
otherwise do nothing. -/
def get_cars_finished (n : Nat) (sys : SystemState) (cars : List Str) : SystemState :=
  if sys.deferredAvailable then
    ⟨fireDeferred n sys.client (.ok (.carList cars)), false⟩
  else sys

/-- `TrafficClientFactory.clientConnectionFailed`: if the deferred is still
present, null it out and fire its errback chain with the failure reason;
otherwise do nothing. -/
def clientConnectionFailed (n : Nat) (sys : SystemState) (cause : Str) : SystemState :=
  if sys.deferredAvailable then
    ⟨fireDeferred n sys.client (.err (.transport cause)), false⟩
  else sys

/-- Terminal event of one connection session, as seen by the factory:
either the connection closed (normally or not) with the accumulated
payload — `connectionLost` decodes it and calls `get_cars_finished` — or
the connection attempt failed with a cause. -/
inductive SessEvent
  | closed (payload : Str)
  | connFailed (cause : Str)
deriving DecidableEq

/-- Delivering one session's terminal event to the factory. -/
def deliver (n : Nat) (sys : SystemState) : SessEvent → SystemState
  | .closed p => get_cars_finished n sys (clientDecode p)
  | .connFailed c => clientConnectionFailed n sys c

/-- Delivering a list of session events in arrival order. -/
def runEvents (n : Nat) (sys : SystemState) (evs : List SessEvent) : SystemState :=
  evs.foldl (deliver n) sys

/-!
Session layer, from `client.py` `TrafficProtocol`: `dataReceived` appends
to the buffer (`self.data += data`); `connectionLost` ignores its `reason`
argument and always decodes the buffer and reports it as a success via
`carsReceived` → `get_cars_finished`.  Only a failed connection attempt
reaches `clientConnectionFailed` (an errback).
-/

/-- `TrafficProtocol.dataReceived`: `self.data += data`. -/
def dataReceived (buf chunk : Str) : Str := buf ++ chunk

/-- Why a connection went away: a normal close by the peer, or a
transport-level problem (reset, lost) after establishment. -/
inductive CloseReason
  | connectionDone
  | transportFail (cause : Str)
deriving DecidableEq

/-- The life of one session: the connection attempt failed outright, or
the connection was established, received these chunks, and then went away
for the given reason. -/
inductive SessionTrace
  | connectFailed (cause : Str)
  | establishedLost (chunks : List Str) (reason : CloseReason)
deriving DecidableEq

/-- What a session hands to its continuation. -/
inductive Delivered
  | success (cars : List Str)
  | failure (e : PyErr)
deriving DecidableEq

/-- The outcome a session delivers.  A failed connection attempt errbacks
with its cause; once established, `connectionLost` IGNORES the close
reason and always decodes the accumulated buffer as a success. -/
def sessionOutcome : SessionTrace → Delivered
  | .connectFailed c => .failure (.transport c)
  | .establishedLost chunks _ => .success (clientDecode (chunks.foldl dataReceived []))

/-!
Chain lemmas.  After the first `(got_cars | get_cars_failed; cars_done)`
pair, the chain value is always `None`, so every later pair leaves `cars`
and the failure log unchanged, raises `TypeError` inside `got_cars`, and
lets `cars_done` bump the counter.
-/

theorem cars_done_cars (st : ClientState) (n : Nat) :
    (cars_done st n).cars = st.cars := by
  unfold cars_done; split <;> rfl

theorem cars_done_failedLog (st : ClientState) (n : Nat) :
    (cars_done st n).failedLog = st.failedLog := by
  unfold cars_done; split <;> rfl

theorem cars_done_addrCount (st : ClientState) (n : Nat) :
    (cars_done st n).addrCount = st.addrCount + 1 := by
  unfold cars_done; split <;> rfl

theorem cars_done_stop_mono (st : ClientState) (n : Nat) (h : st.stopped = true) :
    (cars_done st n).stopped = true := by
  unfold cars_done; split <;> simp [h]

theorem cars_done_stop_hit (st : ClientState) (n : Nat) (h : st.addrCount + 1 = n) :
    (cars_done st n).stopped = true := by
  unfold cars_done; rw [if_pos h]

theorem step1_pyNone (st : ClientState) :
    step1 st (.ok .pyNone) = (st, .err .typeError) := rfl

theorem runChain_none_cars (n : Nat) :
    ∀ (k : Nat) (st : ClientState), (runChain n k st (.ok .pyNone)).cars = st.cars := by
  intro k
  induction k with
  | zero => intro st; rfl
  | succ k ih =>
    intro st
    show (runChain n k (cars_done (step1 st (.ok .pyNone)).1 n) (.ok .pyNone)).cars = st.cars
    rw [ih, step1_pyNone, cars_done_cars]

theorem runChain_none_failedLog (n : Nat) :
    ∀ (k : Nat) (st : ClientState),
      (runChain n k st (.ok .pyNone)).failedLog = st.failedLog := by
  intro k
  induction k with
  | zero => intro st; rfl
  | succ k ih =>
    intro st
    show (runChain n k (cars_done (step1 st (.ok .pyNone)).1 n) (.ok .pyNone)).failedLog
        = st.failedLog
    rw [ih, step1_pyNone, cars_done_failedLog]

theorem runChain_none_addrCount (n : Nat) :
    ∀ (k : Nat) (st : ClientState),
      (runChain n k st (.ok .pyNone)).addrCount = st.addrCount + k := by
  intro k
  induction k with
  | zero => intro st; rfl
  | succ k ih =>
    intro st
    show (runChain n k (cars_done (step1 st (.ok .pyNone)).1 n) (.ok .pyNone)).addrCount
        = st.addrCount + (k + 1)
    rw [ih, step1_pyNone, cars_done_addrCount]
    show st.addrCount + 1 + k = st.addrCount + (k + 1)
    omega

theorem runChain_none_stop_mono (n : Nat) :
    ∀ (k : Nat) (st : ClientState), st.stopped = true →
      (runChain n k st (.ok .pyNone)).stopped = true := by
  intro k
  induction k with
  | zero => intro st h; exact h
  | succ k ih =>
    intro st h
    show (runChain n k (cars_done (step1 st (.ok .pyNone)).1 n) (.ok .pyNone)).stopped = true
    exact ih _ (by rw [step1_pyNone]; exact cars_done_stop_mono st n h)

theorem runChain_none_stop_reach (n : Nat) :
    ∀ (k : Nat) (st : ClientState), st.addrCount < n → n ≤ st.addrCount + k →
      (runChain n k st (.ok .pyNone)).stopped = true := by
  intro k
  induction k with
  | zero => intro st h1 h2; omega
  | succ k ih =>
    intro st h1 h2
    show (runChain n k (cars_done (step1 st (.ok .pyNone)).1 n) (.ok .pyNone)).stopped = true
    rw [step1_pyNone]
    by_cases hn : st.addrCount + 1 = n
    · exact runChain_none_stop_mono n k _ (cars_done_stop_hit st n hn)
    · refine ih (cars_done st n) ?_ ?_
      · rw [cars_done_addrCount]; omega
      · rw [cars_done_addrCount]; omega

/-!
Firing the shared deferred from the fresh client state: the first chain
pair processes the fired result (merging cars, or logging a failure), and
the remaining pairs only bump `addr_count` — which therefore jumps to `n`
in this single run — and `reactor.stop()` is reached.
-/

theorem fire_init_success (k : Nat) (l : List Str) :
    (fireDeferred (k + 1) initClient (.ok (.carList l))).cars = l ∧
    (fireDeferred (k + 1) initClient (.ok (.carList l))).failedLog = [] ∧
    (fireDeferred (k + 1) initClient (.ok (.carList l))).addrCount = k + 1 ∧
    (fireDeferred (k + 1) initClient (.ok (.carList l))).stopped = true := by
  have hst : fireDeferred (k + 1) initClient (.ok (.carList l))
      = runChain (k + 1) k (cars_done ⟨l, 0, false, []⟩ (k + 1)) (.ok .pyNone) := rfl
  rw [hst]
  refine ⟨?_, ?_, ?_, ?_⟩
  · rw [runChain_none_cars, cars_done_cars]
  · rw [runChain_none_failedLog, cars_done_failedLog]
  · rw [runChain_none_addrCount, cars_done_addrCount]
    show 0 + 1 + k = k + 1
    omega
  · cases k with
    | zero =>
      exact runChain_none_stop_mono _ 0 _ (cars_done_stop_hit _ _ rfl)
    | succ j =>
      refine runChain_none_stop_reach _ (j + 1) _ ?_ ?_
      · rw [cars_done_addrCount]
        show 0 + 1 < j + 1 + 1
        omega
      · rw [cars_done_addrCount]
        show j + 1 + 1 ≤ 0 + 1 + (j + 1)
        omega

theorem fire_init_err (k : Nat) (c : Str) :
    (fireDeferred (k + 1) initClient (.err (.transport c))).cars = [] ∧
    (fireDeferred (k + 1) initClient (.err (.transport c))).failedLog = [.transport c] ∧
    (fireDeferred (k + 1) initClient (.err (.transport c))).addrCount = k + 1 ∧
    (fireDeferred (k + 1) initClient (.err (.transport c))).stopped = true := by
  have hst : fireDeferred (k + 1) initClient (.err (.transport c))
      = runChain (k + 1) k (cars_done ⟨[], 0, false, [.transport c]⟩ (k + 1)) (.ok .pyNone) := rfl
  rw [hst]
  refine ⟨?_, ?_, ?_, ?_⟩
  · rw [runChain_none_cars, cars_done_cars]
  · rw [runChain_none_failedLog, cars_done_failedLog]
  · rw [runChain_none_addrCount, cars_done_addrCount]
    show 0 + 1 + k = k + 1
    omega
  · cases k with
    | zero =>
      exact runChain_none_stop_mono _ 0 _ (cars_done_stop_hit _ _ rfl)
    | succ j =>
      refine runChain_none_stop_reach _ (j + 1) _ ?_ ?_
      · rw [cars_done_addrCount]
        show 0 + 1 < j + 1 + 1
        omega
      · rw [cars_done_addrCount]
        show j + 1 + 1 ≤ 0 + 1 + (j + 1)
        omega

/-!
System-level lemmas: the very first session event consumes the deferred,
and from then on `get_cars_finished` / `clientConnectionFailed` find
`self.deferred` equal to `None` and do nothing at all.
-/

theorem runEvents_cons (n : Nat) (sys : SystemState) (ev : SessEvent) (evs : List SessEvent) :
    runEvents n sys (ev :: evs) = runEvents n (deliver n sys ev) evs := rfl

theorem deliver_init_closed (n : Nat) (p : Str) :
    deliver n initSystem (.closed p)
      = ⟨fireDeferred n initClient (.ok (.carList (clientDecode p))), false⟩ := rfl

theorem deliver_init_connFailed (n : Nat) (c : Str) :
    deliver n initSystem (.connFailed c)
      = ⟨fireDeferred n initClient (.err (.transport c)), false⟩ := rfl

theorem deliver_inert (n : Nat) (sys : SystemState) (ev : SessEvent)
    (h : sys.deferredAvailable = false) : deliver n sys ev = sys := by
  cases ev <;> simp [deliver, get_cars_finished, clientConnectionFailed, h]

theorem deliver_consumed (n : Nat) (sys : SystemState) (ev : SessEvent)
    (h : sys.deferredAvailable = true) : (deliver n sys ev).deferredAvailable = false := by
  cases ev <;> simp [deliver, get_cars_finished, clientConnectionFailed, h]

theorem runEvents_inert (n : Nat) (sys : SystemState) (evs : List SessEvent)
    (h : sys.deferredAvailable = false) : runEvents n sys evs = sys := by
  induction evs with
  | nil => rfl
  | cons ev evs ih =>
    rw [runEvents_cons, deliver_inert n sys ev h]
    exact ih

theorem deliver_zero_client (sys : SystemState) (ev : SessEvent) :
    (deliver 0 sys ev).client = sys.client := by
  cases ev with
  | closed p =>
    show (get_cars_finished 0 sys (clientDecode p)).client = sys.client
    unfold get_cars_finished
    split <;> rfl
  | connFailed c =>
    show (clientConnectionFailed 0 sys c).client = sys.client
    unfold clientConnectionFailed
    split <;> rfl

theorem runEvents_zero_client (sys : SystemState) (evs : List SessEvent) :
    (runEvents 0 sys evs).client = sys.client := by
  induction evs generalizing sys with
  | nil => rfl
  | cons ev evs ih =>
    rw [runEvents_cons]
    rw [ih (deliver 0 sys ev)]
    exact deliver_zero_client sys ev

/-- Parsing all chunks of cleanly formatted records recovers them all. -/
theorem map_recordOfChunk_formatRecord (rs : List CarRecord)
    (h : ∀ r ∈ rs, cleanRecord r) :
    (rs.map formatRecord).map recordOfChunk = rs.map some := by
  induction rs with
  | nil => rfl
  | cons r rest ih =>
    simp only [List.map_cons]
    rw [recordOfChunk_formatRecord r (h r (List.mem_cons_self r rest)),
      ih (fun x hx => h x (List.mem_cons_of_mem r hx))]

/-- The merged cars list the code ends up with when the first-arriving
session event is the given one: a closed connection contributes its
decoded buffer, a failed connection attempt contributes nothing. -/
def firstOutcomeCars : SessEvent → List Str
  | .closed p => clientDecode p
  | .connFailed _ => []

/-- The failures the code records (hands to `get_cars_failed`) when the
first-arriving session event is the given one. -/
def firstOutcomeFailures : SessEvent → List PyErr
  | .closed _ => []
  | .connFailed c => [.transport c]

/-!  Claim theorems.  -/

/-- C1: with two configured addresses and both servers responding
successfully (payloads `"a"` and `"b"`), the code reaches
`addr_count = 2`, records no failure, and stops the reactor — but the
merged cars list is `["a"]` alone: the second session's records are
missing, so the merged list is NOT the union of both servers' records.
The factory nulled the shared deferred after the first session fired it,
so the second `get_cars_finished` found `self.deferred` falsy and
dropped the outcome. -/
theorem C1_code_eval :
    (runEvents 2 initSystem [SessEvent.closed ['a'], SessEvent.closed ['b']]).client.cars
      = [['a']] ∧
    (['b'] : Str) ∈ clientDecode ['b'] ∧
    (['b'] : Str) ∉
      (runEvents 2 initSystem [SessEvent.closed ['a'], SessEvent.closed ['b']]).client.cars ∧
    (runEvents 2 initSystem [SessEvent.closed ['a'], SessEvent.closed ['b']]).client.addrCount
      = 2 ∧
    (runEvents 2 initSystem [SessEvent.closed ['a'], SessEvent.closed ['b']]).client.failedLog
      = [] ∧
    (runEvents 2 initSystem [SessEvent.closed ['a'], SessEvent.closed ['b']]).client.stopped
      = true := by
  decide

/-- C2: with two configured addresses and both connection attempts
failing (causes `"r"` and `"s"`), the code logs only the FIRST failure:
`get_cars_failed` sees one error, not `M = 2` — the second
`clientConnectionFailed` found the shared deferred already nulled and
dropped the outcome.  The cycle still reaches `addr_count = 2` and stops,
and nothing is raised (the failure is swallowed inside the chain). -/
theorem C2_code_eval :
    (runEvents 2 initSystem
        [SessEvent.connFailed ['r'], SessEvent.connFailed ['s']]).client.failedLog
      = [PyErr.transport ['r']] ∧
    (runEvents 2 initSystem
        [SessEvent.connFailed ['r'], SessEvent.connFailed ['s']]).client.failedLog.length
      ≠ 2 ∧
    (runEvents 2 initSystem
        [SessEvent.connFailed ['r'], SessEvent.connFailed ['s']]).client.addrCount = 2 ∧
    (runEvents 2 initSystem
        [SessEvent.connFailed ['r'], SessEvent.connFailed ['s']]).client.cars = [] ∧
    (runEvents 2 initSystem
        [SessEvent.connFailed ['r'], SessEvent.connFailed ['s']]).client.stopped = true := by
  decide

/-- C3: the second session's terminal outcome is NOT delivered to the
continuation: after the first session's close consumed the shared
deferred, delivering the second session's close is a no-op — the system
state is unchanged, so the outcome `["b"]` was never handed to any
callback, contradicting "no session that reaches a terminal outcome fails
to have that outcome delivered". -/
theorem C3_code_eval :
    deliver 2 (deliver 2 initSystem (SessEvent.closed ['a'])) (SessEvent.closed ['b'])
      = deliver 2 initSystem (SessEvent.closed ['a']) ∧
    (deliver 2 initSystem (SessEvent.closed ['a'])).client.cars = [['a']] ∧
    (deliver 2 initSystem (SessEvent.closed ['a'])).deferredAvailable = false := by
  decide

/-- C4 (counterexample): for the EMPTY record sequence the round trip
fails: the server encodes `[]` as the empty payload, and the client's
decode of the empty payload is `[""]` — one spurious empty chunk — not
the empty sequence. -/
theorem C4_counterexample :
    clientDecode (encodeRecords []) ≠ List.map formatRecord [] ∧
    clientDecode (encodeRecords []) = [[]] := by
  decide

/-- C4 (amended): for every NONEMPTY sequence of records whose fields
contain neither `'.'` nor `':'`, decoding the encoded payload yields
exactly the records' wire strings in order, and parsing those chunks
back (three `':'`-separated fields each) recovers exactly the original
records in order. -/
theorem C4_roundtrip (rs : List CarRecord) (h0 : rs ≠ [])
    (h1 : ∀ r ∈ rs, cleanRecord r) :
    clientDecode (encodeRecords rs) = rs.map formatRecord ∧
    (clientDecode (encodeRecords rs)).map recordOfChunk = rs.map some := by
  have hchunks : clientDecode (encodeRecords rs) = rs.map formatRecord := by
    cases rs with
    | nil => exact absurd rfl h0
    | cons r rest =>
      show pySplit '.' (pyJoin '.' ((r :: rest).map formatRecord)) = (r :: rest).map formatRecord
      rw [List.map_cons]
      refine pySplit_pyJoin '.' (rest.map formatRecord) (formatRecord r) ?_
      intro x hx
      rw [← List.map_cons] at hx
      obtain ⟨r0, hr0, rfl⟩ := List.mem_map.mp hx
      exact dot_not_mem_formatRecord r0 (h1 r0 hr0)
  refine ⟨hchunks, ?_⟩
  rw [hchunks]
  exact map_recordOfChunk_formatRecord rs h1

/-- C4 (witness): the round trip on two concrete clean records. -/
theorem C4_roundtrip_witness :
    clientDecode (encodeRecords [⟨['t'], ['p'], ['r']⟩, ⟨['u'], ['q'], ['s']⟩])
      = List.map formatRecord [⟨['t'], ['p'], ['r']⟩, ⟨['u'], ['q'], ['s']⟩] ∧
    (clientDecode (encodeRecords [⟨['t'], ['p'], ['r']⟩, ⟨['u'], ['q'], ['s']⟩])).map
        recordOfChunk
      = List.map some [⟨['t'], ['p'], ['r']⟩, ⟨['u'], ['q'], ['s']⟩] :=
  C4_roundtrip [⟨['t'], ['p'], ['r']⟩, ⟨['u'], ['q'], ['s']⟩] (by decide) (by decide)

/-- C5: the code's decode (`connectionLost`) is the wrong decode: on the
one-character payload `"."` it returns two empty-string "records" and
never signals anything — there is no `MalformedRecord` anywhere in
`src/cars` — and on the empty payload it returns `[""]`, not the empty
sequence.  The spec's decode (modelled as `specDecode`) behaves as the
claim states: `MalformedRecord` (`none`) on `"."`, empty sequence on
`""`. -/
theorem C5_code_eval :
    clientDecode ['.'] = [[], []] ∧
    clientDecode [] = [[]] ∧
    specDecode ['.'] = none ∧
    specDecode [] = some [] := by
  decide

/-- C6 (counterexample): a session that was established, buffered `"a"`,
and then suffered a transport failure (reason `"r"`) delivers
`Success(["a"])`: `connectionLost` ignores its `reason` argument and
decodes the accumulated buffer, instead of delivering
`Failure(TransportError)` and discarding the buffer. -/
theorem C6_counterexample :
    sessionOutcome (SessionTrace.establishedLost [['a']] (CloseReason.transportFail ['r']))
      = Delivered.success [['a']] ∧
    sessionOutcome (SessionTrace.establishedLost [['a']] (CloseReason.transportFail ['r']))
      ≠ Delivered.failure (PyErr.transport ['r']) := by
  decide

/-- C6 (amended): only a failure of the connection ATTEMPT produces
`Failure(TransportError)` carrying the cause (no buffer exists at that
point); any transport failure after establishment goes through
`connectionLost`, which ignores the reason and delivers the decoded
accumulated buffer as a Success. -/
theorem C6_amended (c : Str) (chunks : List Str) (r : CloseReason) :
    sessionOutcome (SessionTrace.connectFailed c) = Delivered.failure (PyErr.transport c) ∧
    sessionOutcome (SessionTrace.establishedLost chunks r)
      = Delivered.success (clientDecode (chunks.foldl dataReceived [])) :=
  ⟨rfl, rfl⟩

/-- C7 (counterexample): with zero configured addresses no session ever
exists, `cars_done` is never invoked, and `reactor.stop()` is never
called: the cycle does NOT complete immediately — it never completes. -/
theorem C7_counterexample :
    (runEvents 0 initSystem []).client.stopped = false := by
  decide

/-- C7 (amended): with an empty address list the merged records,
failures and counter all stay empty/zero, but the cycle never completes:
no event sequence ever makes `cars_done` run, so the reactor is never
stopped. -/
theorem C7_amended (evs : List SessEvent) :
    (runEvents 0 initSystem evs).client.stopped = false ∧
    (runEvents 0 initSystem evs).client.cars = [] ∧
    (runEvents 0 initSystem evs).client.failedLog = [] ∧
    (runEvents 0 initSystem evs).client.addrCount = 0 := by
  rw [runEvents_zero_client]
  exact ⟨rfl, rfl, rfl, rfl⟩

/-- C8 (counterexample): with two configured addresses, after exactly ONE
session resolves (payload `"a"`), `addr_count` is already 2 — not 1 — and
the reactor has been stopped, although the second session is unresolved;
the merged records and failures together account for one session only.
So `resolvedCount` does not increase by one per resolved session and
`resolvedCount == totalExpected` does not coincide with "all sessions
resolved". -/
theorem C8_counterexample :
    (runEvents 2 initSystem [SessEvent.closed ['a']]).client.addrCount = 2 ∧
    (runEvents 2 initSystem [SessEvent.closed ['a']]).client.stopped = true ∧
    (runEvents 2 initSystem [SessEvent.closed ['a']]).client.cars.length
      + (runEvents 2 initSystem [SessEvent.closed ['a']]).client.failedLog.length = 1 := by
  decide

/-- C8 (amended): the invariant the code actually maintains: `addr_count`
starts at 0; the FIRST session event fires the shared deferred, whose
chain runs one `cars_done` per configured address, jumping `addr_count`
from 0 to N in that single run and stopping the reactor; the merged cars
and recorded failures reflect only that first event, and every later
event changes nothing. -/
theorem C8_amended (n k : Nat) (h : n = k + 1) (ev : SessEvent) (rest : List SessEvent) :
    initClient.addrCount = 0 ∧
    (runEvents n initSystem (ev :: rest)).client.addrCount = n ∧
    (runEvents n initSystem (ev :: rest)).client.stopped = true ∧
    (runEvents n initSystem (ev :: rest)).client.cars = firstOutcomeCars ev ∧
    (runEvents n initSystem (ev :: rest)).client.failedLog = firstOutcomeFailures ev := by
  subst h
  cases ev with
  | closed p =>
    rw [runEvents_cons, deliver_init_closed, runEvents_inert _ _ _ rfl]
    obtain ⟨h1, h2, h3, h4⟩ := fire_init_success k (clientDecode p)
    exact ⟨rfl, h3, h4, h1, h2⟩
  | connFailed c =>
    rw [runEvents_cons, deliver_init_connFailed, runEvents_inert _ _ _ rfl]
    obtain ⟨h1, h2, h3, h4⟩ := fire_init_err k c
    exact ⟨rfl, h3, h4, h1, h2⟩

/-- C8 (witness): the amended invariant at one address, one successful
session with payload `"a"`. -/
theorem C8_amended_witness :
    initClient.addrCount = 0 ∧
    (runEvents 1 initSystem [SessEvent.closed ['a']]).client.addrCount = 1 ∧
    (runEvents 1 initSystem [SessEvent.closed ['a']]).client.stopped = true ∧
    (runEvents 1 initSystem [SessEvent.closed ['a']]).client.cars
      = firstOutcomeCars (SessEvent.closed ['a']) ∧
    (runEvents 1 initSystem [SessEvent.closed ['a']]).client.failedLog
      = firstOutcomeFailures (SessEvent.closed ['a']) :=
  C8_amended 1 0 rfl (SessEvent.closed ['a']) []

/-- C9: all sessions of one update cycle share the single deferred made
in `TrafficClient.__init__`; the first session event consumes it
(`self.deferred` becomes `None`), and every later session event — success
or failure — is silently dropped: no merge, no failure record, no count
increment, no state change at all. -/
theorem C9_single_shared_deferred (n : Nat) (ev : SessEvent) (evs : List SessEvent) :
    (deliver n initSystem ev).deferredAvailable = false ∧
    runEvents n (deliver n initSystem ev) evs = deliver n initSystem ev := by
  have h := deliver_consumed n initSystem ev rfl
  exact ⟨h, runEvents_inert n _ evs h⟩

/-- C10: the decode run on connection close is total: `split('.')` always
yields at least one chunk (the empty payload yields `[""]`, a one-element
list), and a session whose connection closes normally always delivers a
Success outcome. -/
theorem C10_decode_total (p : Str) (chunks : List Str) :
    clientDecode p ≠ [] ∧
    clientDecode [] = [[]] ∧
    sessionOutcome (SessionTrace.establishedLost chunks CloseReason.connectionDone)
      = Delivered.success (clientDecode (chunks.foldl dataReceived [])) :=
  ⟨pySplit_ne_nil '.' p, rfl, rfl⟩
